import Mathlib

/-!
Shallow embedding of the client utility module (databricks/sql/utils.py):
the ArrowQueue result cursor, the _bound clamping helper, the NoRetryReason
enumeration and the RequestErrorInfo record with its two string renderings.

Python integers are embedded as Int; an Arrow table is embedded as a list of
rows; optional values as Option; a fallible operation returns Except.
-/

namespace DbSql

/-- Model of the external pyarrow Table.slice operation the source calls:
a negative offset is an error; otherwise it returns the rows in
[offset, offset+length) clamped to the table, and a zero or negative
length yields an empty table rather than an error. -/
def pySlice {α : Type} (t : List α) (offset length : Int) : Except String (List α) :=
  if offset < 0 then Except.error "Offset must be non-negative"
  else Except.ok ((t.drop offset.toNat).take length.toNat)

/-- State of ArrowQueue: the mutable row index, the backing table and the
count of valid rows, exactly the three fields the constructor stores. -/
structure ArrowQueue (α : Type) where
  cur_row_index : Int
  arrow_table : List α
  n_valid_rows : Int
deriving DecidableEq

namespace ArrowQueue

/-- ArrowQueue.next_n_rows: length = min(num_rows, n_valid_rows - cur_row_index);
slice the table at the cursor; advance the cursor by the number of rows the
slice actually holds; return the slice with the new state. -/
def next_n_rows {α : Type} (q : ArrowQueue α) (num_rows : Int) :
    Except String (List α × ArrowQueue α) :=
  let length := min num_rows (q.n_valid_rows - q.cur_row_index)
  match pySlice q.arrow_table q.cur_row_index length with
  | Except.error e => Except.error e
  | Except.ok s =>
      Except.ok (s, { q with cur_row_index := q.cur_row_index + (s.length : Int) })

/-- ArrowQueue.remaining_rows: slice from the cursor to n_valid_rows and
advance the cursor by the number of rows returned. -/
def remaining_rows {α : Type} (q : ArrowQueue α) :
    Except String (List α × ArrowQueue α) :=
  match pySlice q.arrow_table q.cur_row_index (q.n_valid_rows - q.cur_row_index) with
  | Except.error e => Except.error e
  | Except.ok s =>
      Except.ok (s, { q with cur_row_index := q.cur_row_index + (s.length : Int) })

/-- The documented cursor invariant: 0 ≤ cursor ≤ validRowCount ≤ batch size. -/
def Inv {α : Type} (q : ArrowQueue α) : Prop :=
  0 ≤ q.cur_row_index ∧ q.cur_row_index ≤ q.n_valid_rows ∧
    q.n_valid_rows ≤ (q.arrow_table.length : Int)

instance {α : Type} (q : ArrowQueue α) : Decidable (Inv q) := by
  unfold Inv; infer_instance

end ArrowQueue

/-- One consumer call on the cursor. -/
inductive CursorOp where
  | next (n : Int)
  | remaining
deriving DecidableEq

/-- A nextRows call with a non-negative argument, or a remainingRows call. -/
def LegalOp : CursorOp → Prop
  | CursorOp.next n => 0 ≤ n
  | CursorOp.remaining => True

instance : (op : CursorOp) → Decidable (LegalOp op)
  | CursorOp.next n => inferInstanceAs (Decidable (0 ≤ n))
  | CursorOp.remaining => inferInstanceAs (Decidable True)

/-- The state after one call, discarding the returned slice. -/
def applyOp {α : Type} (q : ArrowQueue α) : CursorOp → ArrowQueue α
  | CursorOp.next n =>
      match q.next_n_rows n with
      | Except.ok p => p.2
      | Except.error _ => q
  | CursorOp.remaining =>
      match q.remaining_rows with
      | Except.ok p => p.2
      | Except.error _ => q

/-- The state after a finite sequence of calls. -/
def runOps {α : Type} (q : ArrowQueue α) : List CursorOp → ArrowQueue α
  | [] => q
  | op :: ops => runOps (applyOp q op) ops

/-- _bound: clamp x into the optionally one- or two-sided range [min_x, max_x]. -/
def _bound (min_x max_x : Option Int) (x : Int) : Int :=
  match min_x, max_x with
  | none, none => x
  | none, some mx => min mx x
  | some mn, none => max mn x
  | some mn, some mx => min mx (max mn x)

/-- NoRetryReason: the closed enumeration of terminal retry classifications. -/
inductive NoRetryReason where
  | OUT_OF_TIME
  | OUT_OF_ATTEMPTS
  | NOT_RETRYABLE
deriving DecidableEq

/-- The fixed human-readable label attached to each enumeration member. -/
def NoRetryReason.value : NoRetryReason → String
  | NoRetryReason.OUT_OF_TIME => "out of time"
  | NoRetryReason.OUT_OF_ATTEMPTS => "out of attempts"
  | NoRetryReason.NOT_RETRYABLE => "non-retryable error"

/-- The originating request, duck-typed in the source: it may carry a session
handle, an operation handle, both, or neither. A present handle is embedded
by the rendered guid it leads to. -/
structure Request where
  sessionHandle : Option String
  operationHandle : Option String
deriving DecidableEq

/-- RequestErrorInfo: the namedtuple of one failed attempt. The raw exception
object and the retry delay are embedded by their str() renderings. -/
structure RequestErrorInfo where
  error : String
  error_message : Option String
  retry_delay : Option String
  http_code : Option Int
  method : String
  request : Request
deriving DecidableEq

namespace RequestErrorInfo

/-- request_session_id: the session handle's guid when the request carries
a session handle, None otherwise. -/
def request_session_id (r : RequestErrorInfo) : Option String :=
  r.request.sessionHandle

/-- request_query_id: the operation handle's guid when the request carries
an operation handle, None otherwise. -/
def request_query_id (r : RequestErrorInfo) : Option String :=
  r.request.operationHandle

end RequestErrorInfo

/-- Python str() of an optional string: None renders as "None". -/
def pyStrOpt : Option String → String
  | none => "None"
  | some s => s

/-- Python str() of an optional int: None renders as "None". -/
def pyStrOptInt : Option Int → String
  | none => "None"
  | some n => toString n

/-- Python truthiness of an optional string: None and the empty string are
falsy. -/
def pyTruthyStr : Option String → Bool
  | none => false
  | some s => s != ""

namespace RequestErrorInfo

/-- full_info_logging_str: the ordered key/value pairs, extended by either
the no-retry reason or the retry bookkeeping, joined as "Key: Value" pairs
with "; ". -/
def full_info_logging_str (r : RequestErrorInfo) (no_retry_reason : Option NoRetryReason)
    (attempt max_attempts elapsed max_duration : Int) : String :=
  let log_base_data : List (String × String) :=
    [("Method", r.method),
     ("Session-id", pyStrOpt r.request_session_id),
     ("Query-id", pyStrOpt r.request_query_id),
     ("HTTP-code", pyStrOptInt r.http_code),
     ("Error-message", pyStrOpt r.error_message),
     ("Original-exception", r.error)]
  let entries : List (String × String) :=
    match no_retry_reason with
    | some reason => log_base_data ++ [("No-retry-reason", reason.value)]
    | none =>
        log_base_data ++
          [("Bounded-retry-delay", pyStrOpt r.retry_delay),
           ("Attempt", toString attempt ++ "/" ++ toString max_attempts),
           ("Elapsed-seconds", toString elapsed ++ "/" ++ toString max_duration)]
  String.intercalate "; " (entries.map (fun kv => kv.1 ++ ": " ++ kv.2))

/-- user_friendly_error_message: the base sentence, the error message when it
is truthy, then a suffix determined by the no-retry reason. -/
def user_friendly_error_message (r : RequestErrorInfo)
    (no_retry_reason : Option NoRetryReason) (attempt elapsed : Int) : String :=
  let msg := "Error during request to server"
  let msg := if pyTruthyStr r.error_message then
      msg ++ ": " ++ r.error_message.getD "" else msg
  if no_retry_reason = some NoRetryReason.OUT_OF_ATTEMPTS then
    msg ++ ": After " ++ toString attempt ++ " retry attempts, retries are exhausted"
  else if no_retry_reason = some NoRetryReason.OUT_OF_TIME then
    msg ++ ": After " ++ toString elapsed ++ " seconds, maximum retry duration will be exceeded"
  else msg

end RequestErrorInfo

/-- The suffix the user message gains from the no-retry reason, written from
the spec's case analysis; used to compare renderings against the spec. -/
def userMessageSuffix (no_retry_reason : Option NoRetryReason)
    (attempt elapsed : Int) : String :=
  match no_retry_reason with
  | some NoRetryReason.OUT_OF_ATTEMPTS =>
      ": After " ++ toString attempt ++ " retry attempts, retries are exhausted"
  | some NoRetryReason.OUT_OF_TIME =>
      ": After " ++ toString elapsed ++ " seconds, maximum retry duration will be exceeded"
  | _ => ""

namespace ArrowQueue

/-- The rows a successful slice at the cursor returns for a given length. -/
def sliceAt {α : Type} (q : ArrowQueue α) (len : Int) : List α :=
  (q.arrow_table.drop q.cur_row_index.toNat).take len.toNat

lemma sliceAt_length {α : Type} (q : ArrowQueue α) (len : Int) :
    (q.sliceAt len).length =
      min len.toNat (q.arrow_table.length - q.cur_row_index.toNat) := by
  simp [sliceAt]

lemma next_n_rows_eq {α : Type} (q : ArrowQueue α) (n : Int)
    (h0 : 0 ≤ q.cur_row_index) :
    q.next_n_rows n =
      Except.ok (q.sliceAt (min n (q.n_valid_rows - q.cur_row_index)),
        { q with cur_row_index := q.cur_row_index +
            ((q.sliceAt (min n (q.n_valid_rows - q.cur_row_index))).length : Int) }) := by
  simp [next_n_rows, pySlice, sliceAt, not_lt.mpr h0]

lemma remaining_rows_eq {α : Type} (q : ArrowQueue α)
    (h0 : 0 ≤ q.cur_row_index) :
    q.remaining_rows =
      Except.ok (q.sliceAt (q.n_valid_rows - q.cur_row_index),
        { q with cur_row_index := q.cur_row_index +
            ((q.sliceAt (q.n_valid_rows - q.cur_row_index)).length : Int) }) := by
  simp [remaining_rows, pySlice, sliceAt, not_lt.mpr h0]

lemma sliceAt_length_of_inv {α : Type} (q : ArrowQueue α) (len : Int)
    (h0 : 0 ≤ q.cur_row_index) (hub : q.cur_row_index + len ≤ q.n_valid_rows)
    (hn : q.n_valid_rows ≤ (q.arrow_table.length : Int)) :
    ((q.sliceAt len).length : Int) = max len 0 := by
  rw [sliceAt_length]
  omega

end ArrowQueue

lemma applyOp_mono {α : Type} (q : ArrowQueue α) (op : CursorOp) (h : q.Inv) :
    (applyOp q op).Inv ∧ q.cur_row_index ≤ (applyOp q op).cur_row_index := by
  obtain ⟨h0, h1, h2⟩ := h
  cases op with
  | next n =>
      have hL := ArrowQueue.sliceAt_length q (min n (q.n_valid_rows - q.cur_row_index))
      simp only [applyOp, ArrowQueue.next_n_rows_eq q n h0, ArrowQueue.Inv]
      omega
  | remaining =>
      have hL := ArrowQueue.sliceAt_length q (q.n_valid_rows - q.cur_row_index)
      simp only [applyOp, ArrowQueue.remaining_rows_eq q h0, ArrowQueue.Inv]
      omega

/-- C5: _bound matches the four-case reference clamp, and the three scenario
evaluations hold: clamp(None,10,15)=10, clamp(0,None,-3)=0, clamp(0,10,5)=5. -/
theorem C5_bound_cases :
    (∀ x : Int, _bound none none x = x)
    ∧ (∀ mx x : Int, _bound none (some mx) x = min mx x)
    ∧ (∀ mn x : Int, _bound (some mn) none x = max mn x)
    ∧ (∀ mn mx x : Int, _bound (some mn) (some mx) x = min mx (max mn x))
    ∧ _bound none (some 10) 15 = 10
    ∧ _bound (some 0) none (-3) = 0
    ∧ _bound (some 0) (some 10) 5 = 5 :=
  ⟨fun _ => rfl, fun _ _ => rfl, fun _ _ => rfl, fun _ _ _ => rfl,
   by decide, by decide, by decide⟩

/-- C1: on an invariant-satisfying state and n ≥ 0, nextRows(n) returns exactly
the slice [cursor, cursor+take) with take = min(n, validRowCount - cursor) and
advances the cursor by exactly take; and on a 10-row batch with cursor 0,
nextRows(4) yields 4 rows leaving cursor 4, nextRows(100) then yields 6 rows
leaving cursor 10, and remainingRows() then yields 0 rows. -/
theorem C1_nextRows_slice_advance :
    (∀ (α : Type) (q : ArrowQueue α) (n : Int),
      0 ≤ q.cur_row_index → q.cur_row_index ≤ q.n_valid_rows →
      q.n_valid_rows ≤ (q.arrow_table.length : Int) → 0 ≤ n →
      q.next_n_rows n =
        Except.ok ((q.arrow_table.drop q.cur_row_index.toNat).take
            (min n (q.n_valid_rows - q.cur_row_index)).toNat,
          { q with cur_row_index :=
              q.cur_row_index + min n (q.n_valid_rows - q.cur_row_index) }))
    ∧ (⟨0, List.range 10, 10⟩ : ArrowQueue Nat).next_n_rows 4 =
        Except.ok ([0, 1, 2, 3], ⟨4, List.range 10, 10⟩)
    ∧ (⟨4, List.range 10, 10⟩ : ArrowQueue Nat).next_n_rows 100 =
        Except.ok ([4, 5, 6, 7, 8, 9], ⟨10, List.range 10, 10⟩)
    ∧ (⟨10, List.range 10, 10⟩ : ArrowQueue Nat).remaining_rows =
        Except.ok ([], ⟨10, List.range 10, 10⟩) := by
  refine ⟨?_, rfl, rfl, rfl⟩
  intro α q n h0 h1 h2 hn
  have hl : (((q.sliceAt (min n (q.n_valid_rows - q.cur_row_index))).length : Int)) =
      min n (q.n_valid_rows - q.cur_row_index) := by
    rw [ArrowQueue.sliceAt_length]
    omega
  rw [ArrowQueue.next_n_rows_eq q n h0, hl]
  rfl

theorem C1_witness :
    (⟨0, List.range 10, 10⟩ : ArrowQueue Nat).next_n_rows 4 =
      Except.ok ([0, 1, 2, 3], ⟨4, List.range 10, 10⟩) := by
  have h := C1_nextRows_slice_advance.1 Nat ⟨0, List.range 10, 10⟩ 4
    (by decide) (by decide) (by decide) (by decide)
  exact h

/-- C2: from a state satisfying 0 ≤ cursor ≤ validRowCount ≤ batch size, any
finite sequence of nextRows(n ≥ 0) and remainingRows calls preserves the
invariant, and no single call decreases the cursor. -/
theorem C2_cursor_invariant :
    (∀ (α : Type) (q : ArrowQueue α) (ops : List CursorOp),
      q.Inv → (∀ op ∈ ops, LegalOp op) →
      (runOps q ops).Inv ∧ q.cur_row_index ≤ (runOps q ops).cur_row_index)
    ∧ (∀ (α : Type) (q : ArrowQueue α) (op : CursorOp),
      q.Inv → LegalOp op → q.cur_row_index ≤ (applyOp q op).cur_row_index) := by
  have main : ∀ (α : Type) (ops : List CursorOp) (q : ArrowQueue α),
      q.Inv → (runOps q ops).Inv ∧ q.cur_row_index ≤ (runOps q ops).cur_row_index := by
    intro α ops
    induction ops with
    | nil => exact fun q h => ⟨h, le_refl _⟩
    | cons op rest ih =>
        intro q h
        have step := applyOp_mono q op h
        have tail := ih (applyOp q op) step.1
        exact ⟨tail.1, le_trans step.2 tail.2⟩
  exact ⟨fun α q ops h _ => main α ops q h,
         fun α q op h _ => (applyOp_mono q op h).2⟩

theorem C2_witness :
    ((runOps (⟨0, List.range 10, 10⟩ : ArrowQueue Nat)
        [CursorOp.next 4, CursorOp.remaining]).Inv
      ∧ (⟨0, List.range 10, 10⟩ : ArrowQueue Nat).cur_row_index ≤
          (runOps (⟨0, List.range 10, 10⟩ : ArrowQueue Nat)
            [CursorOp.next 4, CursorOp.remaining]).cur_row_index)
    ∧ (⟨0, List.range 10, 10⟩ : ArrowQueue Nat).cur_row_index ≤
        (applyOp (⟨0, List.range 10, 10⟩ : ArrowQueue Nat) (CursorOp.next 4)).cur_row_index :=
  ⟨C2_cursor_invariant.1 Nat ⟨0, List.range 10, 10⟩ [CursorOp.next 4, CursorOp.remaining]
      (by decide) (by decide),
   C2_cursor_invariant.2 Nat ⟨0, List.range 10, 10⟩ (CursorOp.next 4)
      (by decide) (by decide)⟩

/-- C6: on a valid cursor state, nextRows(n) never errors for any integer n:
it returns ok, with an empty batch for n ≤ 0, and never more rows than are
available. -/
theorem C6_nextRows_total (α : Type) (q : ArrowQueue α) (n : Int)
    (h0 : 0 ≤ q.cur_row_index) (h1 : q.cur_row_index ≤ q.n_valid_rows) :
    ∃ s q1, q.next_n_rows n = Except.ok (s, q1)
      ∧ (n ≤ 0 → s = [])
      ∧ ((s.length : Int) ≤ q.n_valid_rows - q.cur_row_index) := by
  rw [ArrowQueue.next_n_rows_eq q n h0]
  refine ⟨_, _, rfl, ?_, ?_⟩
  · intro hn
    have hz : (min n (q.n_valid_rows - q.cur_row_index)).toNat = 0 := by omega
    simp [ArrowQueue.sliceAt, hz]
  · have hL := ArrowQueue.sliceAt_length q (min n (q.n_valid_rows - q.cur_row_index))
    omega

theorem C6_witness :
    ∃ s q1, (⟨0, List.range 10, 10⟩ : ArrowQueue Nat).next_n_rows (-1) =
        Except.ok (s, q1)
      ∧ ((-1 : Int) ≤ 0 → s = [])
      ∧ ((s.length : Int) ≤ (10 : Int) - 0) :=
  C6_nextRows_total Nat ⟨0, List.range 10, 10⟩ (-1) (by decide) (by decide)

/-- C8: remainingRows() is the same call as nextRows(validRowCount - cursor):
the whole results coincide, and on an invariant-satisfying state the final
cursor is validRowCount. -/
theorem C8_remaining_refines_next (α : Type) (q : ArrowQueue α)
    (h0 : 0 ≤ q.cur_row_index) (h1 : q.cur_row_index ≤ q.n_valid_rows)
    (h2 : q.n_valid_rows ≤ (q.arrow_table.length : Int)) :
    q.remaining_rows = q.next_n_rows (q.n_valid_rows - q.cur_row_index)
    ∧ ∃ s, q.remaining_rows =
        Except.ok (s, { q with cur_row_index := q.n_valid_rows }) := by
  constructor
  · rw [ArrowQueue.next_n_rows_eq q _ h0, ArrowQueue.remaining_rows_eq q h0, min_self]
  · have hl : q.cur_row_index +
        ((q.sliceAt (q.n_valid_rows - q.cur_row_index)).length : Int) = q.n_valid_rows := by
      have hL := ArrowQueue.sliceAt_length q (q.n_valid_rows - q.cur_row_index)
      omega
    rw [ArrowQueue.remaining_rows_eq q h0, hl]
    exact ⟨_, rfl⟩

lemma next_empty_of_drained {α : Type} (q : ArrowQueue α) (k : Int)
    (h0 : 0 ≤ q.cur_row_index)
    (h : (min k (q.n_valid_rows - q.cur_row_index)).toNat = 0 ∨
      q.arrow_table.length ≤ q.cur_row_index.toNat) :
    q.next_n_rows k = Except.ok ([], q) := by
  have hempty : q.sliceAt (min k (q.n_valid_rows - q.cur_row_index)) = [] := by
    rcases h with hz | hge
    · simp [ArrowQueue.sliceAt, hz]
    · simp [ArrowQueue.sliceAt, List.drop_eq_nil_of_le hge]
  rw [ArrowQueue.next_n_rows_eq q k h0, hempty]
  simp

/-- C7: once cursor == validRowCount, every call — nextRows(k) for any k as
well as remainingRows() — returns an empty batch and leaves the state
unchanged; and after a remainingRows call from any valid state, a subsequent
nextRows(k > 0) returns an empty batch. -/
theorem C7_exhausted_yields_empty :
    (∀ (α : Type) (q : ArrowQueue α) (k : Int),
      0 ≤ q.cur_row_index → q.cur_row_index = q.n_valid_rows →
      q.next_n_rows k = Except.ok ([], q) ∧ q.remaining_rows = Except.ok ([], q))
    ∧ (∀ (α : Type) (q q1 : ArrowQueue α) (s : List α) (k : Int),
      0 ≤ q.cur_row_index → q.cur_row_index ≤ q.n_valid_rows → 0 < k →
      q.remaining_rows = Except.ok (s, q1) →
      q1.next_n_rows k = Except.ok ([], q1)) := by
  constructor
  · intro α q k h0 hx
    refine ⟨next_empty_of_drained q k h0 (Or.inl (by omega)), ?_⟩
    have hrem : q.sliceAt (q.n_valid_rows - q.cur_row_index) = [] := by
      have hz : (q.n_valid_rows - q.cur_row_index).toNat = 0 := by omega
      simp [ArrowQueue.sliceAt, hz]
    rw [ArrowQueue.remaining_rows_eq q h0, hrem]
    simp
  · intro α q q1 s k h0 h1 hk hrem
    rw [ArrowQueue.remaining_rows_eq q h0] at hrem
    simp only [Except.ok.injEq, Prod.mk.injEq] at hrem
    obtain ⟨hs, hq1⟩ := hrem
    subst hq1
    have hL := ArrowQueue.sliceAt_length q (q.n_valid_rows - q.cur_row_index)
    apply next_empty_of_drained
    · show (0 : Int) ≤ q.cur_row_index +
        ((q.sliceAt (q.n_valid_rows - q.cur_row_index)).length : Int)
      omega
    · show (min k (q.n_valid_rows - (q.cur_row_index +
          ((q.sliceAt (q.n_valid_rows - q.cur_row_index)).length : Int)))).toNat = 0 ∨
        q.arrow_table.length ≤ (q.cur_row_index +
          ((q.sliceAt (q.n_valid_rows - q.cur_row_index)).length : Int)).toNat
      omega

theorem C7_witness :
    ((⟨10, List.range 10, 10⟩ : ArrowQueue Nat).next_n_rows 3 =
        Except.ok ([], ⟨10, List.range 10, 10⟩)
      ∧ (⟨10, List.range 10, 10⟩ : ArrowQueue Nat).remaining_rows =
        Except.ok ([], ⟨10, List.range 10, 10⟩))
    ∧ (⟨5, List.range 5, 5⟩ : ArrowQueue Nat).next_n_rows 7 =
        Except.ok ([], ⟨5, List.range 5, 5⟩) :=
  ⟨C7_exhausted_yields_empty.1 Nat ⟨10, List.range 10, 10⟩ 3 (by decide) (by decide),
   C7_exhausted_yields_empty.2 Nat ⟨2, List.range 5, 5⟩ ⟨5, List.range 5, 5⟩ [2, 3, 4] 7
     (by decide) (by decide) (by decide) (by rfl)⟩

theorem C8_witness :
    (⟨2, List.range 5, 5⟩ : ArrowQueue Nat).remaining_rows =
      (⟨2, List.range 5, 5⟩ : ArrowQueue Nat).next_n_rows
        ((⟨2, List.range 5, 5⟩ : ArrowQueue Nat).n_valid_rows -
          (⟨2, List.range 5, 5⟩ : ArrowQueue Nat).cur_row_index)
    ∧ ∃ s, (⟨2, List.range 5, 5⟩ : ArrowQueue Nat).remaining_rows =
        Except.ok (s, ⟨5, List.range 5, 5⟩) :=
  C8_remaining_refines_next Nat ⟨2, List.range 5, 5⟩ (by decide) (by decide) (by decide)

/-- C3: the diagnostic line is the "Key: Value" pairs joined by "; " with keys
in order Method, Session-id, Query-id, HTTP-code, Error-message,
Original-exception, followed by No-retry-reason with the reason's fixed label
when a reason is present, and otherwise by Bounded-retry-delay, then Attempt
as attempt/maxAttempts, then Elapsed-seconds as elapsed/maxDuration. -/
theorem C3_diagnostic_line_format :
    ∀ (r : RequestErrorInfo) (reason : NoRetryReason) (a ma e md : Int),
      r.full_info_logging_str (some reason) a ma e md =
        String.intercalate "; "
          ["Method: " ++ r.method,
           "Session-id: " ++ pyStrOpt r.request_session_id,
           "Query-id: " ++ pyStrOpt r.request_query_id,
           "HTTP-code: " ++ pyStrOptInt r.http_code,
           "Error-message: " ++ pyStrOpt r.error_message,
           "Original-exception: " ++ r.error,
           "No-retry-reason: " ++ reason.value]
      ∧ r.full_info_logging_str none a ma e md =
        String.intercalate "; "
          ["Method: " ++ r.method,
           "Session-id: " ++ pyStrOpt r.request_session_id,
           "Query-id: " ++ pyStrOpt r.request_query_id,
           "HTTP-code: " ++ pyStrOptInt r.http_code,
           "Error-message: " ++ pyStrOpt r.error_message,
           "Original-exception: " ++ r.error,
           "Bounded-retry-delay: " ++ pyStrOpt r.retry_delay,
           "Attempt: " ++ toString a ++ "/" ++ toString ma,
           "Elapsed-seconds: " ++ toString e ++ "/" ++ toString md] := by
  intro r reason a ma e md
  exact ⟨rfl, rfl⟩

lemma append_chunk (L2 p L t s : String) (h : L2 ++ p = L) :
    L ++ t ++ s = L2 ++ (p ++ t ++ s) := by
  simp [← h, String.append_assoc]

/-- C4 counterexample: with errorMessage present but equal to the empty
string, the code does not append the ": " + errorMessage suffix the claim
requires for every present errorMessage. -/
theorem C4_counterexample :
    (RequestErrorInfo.mk "raw" (some "") none none "m" ⟨none, none⟩).user_friendly_error_message
        none 0 0 = "Error during request to server"
    ∧ (RequestErrorInfo.mk "raw" (some "") none none "m" ⟨none, none⟩).user_friendly_error_message
        none 0 0 ≠ "Error during request to server" ++ ": " ++ "" := by
  exact ⟨rfl, by decide⟩

/-- C4 (amended): renderUserMessage starts with "Error during request to
server"; when errorMessage is present and non-empty it appends
": " + errorMessage; then OutOfAttempts appends the attempts suffix,
OutOfTime the elapsed suffix, and NotRetryable or absent appends nothing;
the OutOfAttempts example with errorMessage "timeout" and attempt 3 renders
as stated. -/
theorem C4_user_message_amended :
    (∀ (r : RequestErrorInfo) (reason : Option NoRetryReason) (a e : Int),
      r.user_friendly_error_message reason a e =
        (match r.error_message with
         | some m =>
             if m = "" then "Error during request to server"
             else "Error during request to server" ++ ": " ++ m
         | none => "Error during request to server") ++ userMessageSuffix reason a e)
    ∧ (RequestErrorInfo.mk "raw" (some "timeout") none none "ExecuteStatement"
        ⟨none, none⟩).user_friendly_error_message
          (some NoRetryReason.OUT_OF_ATTEMPTS) 3 0 =
        "Error during request to server: timeout: After 3 retry attempts, retries are exhausted" := by
  constructor
  · intro r reason a e
    cases hm : r.error_message with
    | none =>
        rcases reason with _ | r' <;> try rcases r'
        all_goals
          simp [RequestErrorInfo.user_friendly_error_message, pyTruthyStr, hm,
            userMessageSuffix]
        all_goals exact append_chunk _ _ _ _ _ rfl
    | some m =>
        by_cases hme : m = "" <;>
          rcases reason with _ | r' <;> try rcases r'
        all_goals
          simp [RequestErrorInfo.user_friendly_error_message, pyTruthyStr, hm,
            userMessageSuffix, hme]
        all_goals exact append_chunk _ _ _ _ _ rfl
  · rfl

/-- C9: two RequestErrorInfo values identical except for the raw error field
produce identical user-facing messages for every reason, attempt and elapsed:
the raw error never influences the user message. -/
theorem C9_user_message_ignores_raw_error :
    ∀ (e1 e2 : String) (msg rd : Option String) (hc : Option Int) (m : String)
      (req : Request) (reason : Option NoRetryReason) (a el : Int),
      (RequestErrorInfo.mk e1 msg rd hc m req).user_friendly_error_message reason a el =
      (RequestErrorInfo.mk e2 msg rd hc m req).user_friendly_error_message reason a el := by
  intro e1 e2 msg rd hc m req reason a el
  rfl

/-- C10: a present-but-empty errorMessage is suppressed exactly like an absent
one: the user message equals the one for the same record with errorMessage
absent, namely the base sentence plus only the reason-dependent suffix. -/
theorem C10_empty_message_suppressed (r : RequestErrorInfo)
    (h : r.error_message = some "") (reason : Option NoRetryReason) (a e : Int) :
    r.user_friendly_error_message reason a e =
      (RequestErrorInfo.mk r.error none r.retry_delay r.http_code r.method
        r.request).user_friendly_error_message reason a e
    ∧ r.user_friendly_error_message reason a e =
        "Error during request to server" ++ userMessageSuffix reason a e := by
  rcases reason with _ | r' <;> try rcases r'
  all_goals
    simp [RequestErrorInfo.user_friendly_error_message, pyTruthyStr, h,
      userMessageSuffix]
  all_goals exact append_chunk _ _ _ _ _ rfl

theorem C10_witness :
    (RequestErrorInfo.mk "x" (some "") none none "m" ⟨none, none⟩).user_friendly_error_message
        (some NoRetryReason.OUT_OF_TIME) 1 7 =
      (RequestErrorInfo.mk "x" none none none "m" ⟨none, none⟩).user_friendly_error_message
        (some NoRetryReason.OUT_OF_TIME) 1 7
    ∧ (RequestErrorInfo.mk "x" (some "") none none "m" ⟨none, none⟩).user_friendly_error_message
        (some NoRetryReason.OUT_OF_TIME) 1 7 =
        "Error during request to server" ++
          userMessageSuffix (some NoRetryReason.OUT_OF_TIME) 1 7 :=
  C10_empty_message_suppressed (RequestErrorInfo.mk "x" (some "") none none "m" ⟨none, none⟩)
    rfl (some NoRetryReason.OUT_OF_TIME) 1 7

end DbSql
